import Mathlib

/-!
Verification of the Sukhrani invoice application core
(`invoice_app.py` and the invoice-assembly part of `streamlit_app.py`).

Numeric values (rates, quantities converted to currency, amounts, taxes)
are embedded as exact rationals `ℚ`, following the specification's
"decimal currency arithmetic" reading of the Python numeric tower; on all
concrete figures appearing below the Python floating-point evaluation
agrees exactly with the rational one.  Strings are embedded as `String`,
Python dictionary lookups that may fail as `Except` with a `keyError`
carrying the looked-up key, and the PDF canvas as the list of text
fragments drawn on it.
-/

namespace Sukhrani

/-- A line item of the invoice-in-progress, mirroring the `new_item`
dictionary built in `streamlit_app.py` (`sn`, `name`, `qty`, `hsn`,
`rate`, `amount`, `cgst`, `sgst`, `tax`, `total`). -/
structure LineItem where
  sn : Nat
  name : String
  qty : Nat
  hsn : String
  rate : ℚ
  amount : ℚ
  cgst : ℚ
  sgst : ℚ
  tax : ℚ
  total : ℚ
deriving Repr, DecidableEq

/-- The totals dictionary returned by `recalculate_totals`:
`{"amount": ..., "tax": ..., "grand_total": ...}`. -/
structure InvoiceTotals where
  amount : ℚ
  tax : ℚ
  grand_total : ℚ
deriving Repr, DecidableEq

/-- Python's built-in `sum` over a sequence of numbers: a left fold with
initial accumulator `0`. -/
def pySum (l : List ℚ) : ℚ :=
  l.foldl (· + ·) 0

/-- `recalculate_totals(items_list)` from `invoice_app.py` lines 60-63:
sums the `amount` field and the `tax` field over the items and derives
`grand_total = total_amount + total_tax`. -/
def recalculate_totals (items_list : List LineItem) : InvoiceTotals :=
  let total_amount := pySum (items_list.map fun item => item.amount)
  let total_tax := pySum (items_list.map fun item => item.tax)
  { amount := total_amount, tax := total_tax, grand_total := total_amount + total_tax }

/-- `apply_price_adjustments(invoice_items)` from `invoice_app.py` lines
65-67: a passthrough returning the items unchanged, the recomputed
totals, and an empty auxiliary list. -/
def apply_price_adjustments (invoice_items : List LineItem) :
    List LineItem × InvoiceTotals × List String :=
  (invoice_items, recalculate_totals invoice_items, [])

/-- Python's `int()` applied to a number: truncation toward zero. -/
def intTrunc (q : ℚ) : ℤ :=
  if q < 0 then -(⌊-q⌋) else ⌊q⌋

/-- Rounding to the nearest integer, ties to the even neighbour: the
rounding Python's fixed-point string formatting (`format(v, '.2f')`)
applies to the scaled value. -/
def roundHalfEven (q : ℚ) : ℤ :=
  let f := ⌊q⌋
  let r := q - f
  if r < 1 / 2 then f
  else if 1 / 2 < r then f + 1
  else if f % 2 = 0 then f else f + 1

/-- Groups a reversed (least-significant-first) digit list into blocks of
three, for thousands grouping. -/
def chunk3 : List Char → List (List Char)
  | [] => []
  | a :: b :: c :: rest => [a, b, c] :: chunk3 rest
  | l => [l]

/-- Renders a natural number with a comma as thousands separator, as
Python's `','` format option does for the integer part. -/
def commaGroup (n : Nat) : String :=
  let ds := Nat.toDigits 10 n
  let groups := (chunk3 ds.reverse).map fun g => String.mk g.reverse
  String.intercalate "," groups.reverse

/-- Renders `n < 100` as exactly two digits, zero-padded. -/
def twoDigits (n : Nat) : String :=
  if n < 10 then "0" ++ Nat.repr n else Nat.repr n

/-- Python's `format(v, '.2f')`: sign, integer part without grouping,
and exactly two decimal digits, after half-even rounding at two
decimals. -/
def fixed2 (q : ℚ) : String :=
  let c := (roundHalfEven (|q| * 100)).toNat
  (if q < 0 then "-" else "") ++ Nat.repr (c / 100) ++ "." ++ twoDigits (c % 100)

/-- Python's `format(v, ',.2f')`: like `fixed2` but with thousands
grouping in the integer part. -/
def fixed2comma (q : ℚ) : String :=
  let c := (roundHalfEven (|q| * 100)).toNat
  (if q < 0 then "-" else "") ++ commaGroup (c / 100) ++ "." ++ twoDigits (c % 100)

/-- `format_tax_percentage(decimal_rate)` from `invoice_app.py` lines
69-75: multiply by 100; if the result equals its `int()` truncation,
render the integer followed by `%`, else render with two decimal places
followed by `%`. -/
def format_tax_percentage (decimal_rate : ℚ) : String :=
  let percentage := decimal_rate * 100
  if percentage = (intTrunc percentage : ℚ) then
    toString (intTrunc percentage) ++ "%"
  else
    fixed2 percentage ++ "%"

/-- The fixed currency-prefix string `RUPEE` of `generate_pdf`. -/
def RUPEE : String := "Rs. "

/-- `money(v)` from `invoice_app.py` lines 123-124:
`f"{RUPEE}{v:,.2f}"`. -/
def money (v : ℚ) : String :=
  RUPEE ++ fixed2comma v

theorem foldl_add_eq (a : ℚ) (l : List ℚ) : l.foldl (· + ·) a = a + l.sum := by
  induction l generalizing a with
  | nil => simp
  | cons x xs ih => simp [List.foldl, ih, add_assoc]

theorem pySum_eq_sum (l : List ℚ) : pySum l = l.sum := by
  simp [pySum, foldl_add_eq]

theorem intTrunc_intCast (z : ℤ) : intTrunc ((z : ℚ)) = z := by
  unfold intTrunc
  rcases lt_or_le (z : ℚ) 0 with h | h
  · rw [if_pos h, ← Int.cast_neg, Int.floor_intCast, neg_neg]
  · rw [if_neg (not_lt.2 h), Int.floor_intCast]

theorem roundHalfEven_intCast (z : ℤ) : roundHalfEven ((z : ℚ)) = z := by
  unfold roundHalfEven
  rw [Int.floor_intCast]
  norm_num

theorem roundHalfEven_natCast (n : ℕ) : roundHalfEven ((n : ℚ)) = n := by
  rw [show ((n : ℚ)) = ((n : ℤ) : ℚ) by push_cast; ring, roundHalfEven_intCast]

theorem fixed2_eval (q : ℚ) (n : ℕ) (h0 : ¬q < 0) (h : |q| * 100 = ((n : ℕ) : ℚ)) :
    fixed2 q = Nat.repr (n / 100) ++ "." ++ twoDigits (n % 100) := by
  simp [fixed2, h, roundHalfEven_natCast, h0, String.empty_append]

theorem fixed2comma_eval (q : ℚ) (n : ℕ) (h0 : ¬q < 0) (h : |q| * 100 = ((n : ℕ) : ℚ)) :
    fixed2comma q = commaGroup (n / 100) ++ "." ++ twoDigits (n % 100) := by
  simp [fixed2comma, h, roundHalfEven_natCast, h0, String.empty_append]

theorem money_eval (v : ℚ) (n : ℕ) (h0 : ¬v < 0) (h : |v| * 100 = ((n : ℕ) : ℚ)) :
    money v = RUPEE ++ (commaGroup (n / 100) ++ "." ++ twoDigits (n % 100)) := by
  rw [money, fixed2comma_eval v n h0 h]

/-- C1: for every list of line items, `recalculate_totals` returns the sum
of the items' `amount` fields, the sum of their `tax` fields, and
`grand_total = amount + tax`; on the empty list all three totals are 0. -/
theorem recalculate_totals_sums (items : List LineItem) :
    (recalculate_totals items).amount = (items.map fun item => item.amount).sum ∧
    (recalculate_totals items).tax = (items.map fun item => item.tax).sum ∧
    (recalculate_totals items).grand_total =
      (recalculate_totals items).amount + (recalculate_totals items).tax ∧
    recalculate_totals [] = { amount := 0, tax := 0, grand_total := 0 } := by
  refine ⟨?_, ?_, rfl, ?_⟩
  · simp [recalculate_totals, pySum_eq_sum]
  · simp [recalculate_totals, pySum_eq_sum]
  · simp [recalculate_totals, pySum]

/-- One invocation of the totals calculator, as the caller observes it:
`recalculate_totals` only reads `item['amount']` and `item['tax']` through
generator expressions, so the item list the caller holds after the call is
the one it passed in, paired with the computed totals. -/
def calculator_call (items_list : List LineItem) : List LineItem × InvoiceTotals :=
  (items_list, recalculate_totals items_list)

/-- C5: the totals calculator leaves its input item list unchanged, and
invoking it a second time on that unchanged list yields the identical
`InvoiceTotals`. -/
theorem recalculate_totals_pure_idempotent (items : List LineItem) :
    calculator_call items = (items, recalculate_totals items) ∧
    (calculator_call (calculator_call items).1).2 = (calculator_call items).2 :=
  ⟨rfl, rfl⟩

theorem intTrunc_floor_eval (q : ℚ) (z : ℤ) (h0 : ¬q < 0) (h1 : (z : ℚ) ≤ q)
    (h2 : q < z + 1) : intTrunc q = z := by
  unfold intTrunc
  rw [if_neg h0, Int.floor_eq_iff]
  exact ⟨h1, h2⟩

/-- C3: the percentage formatter multiplies by 100, renders the integer
alone when the result is whole and otherwise with exactly two decimal
places, always suffixed with the percent sign: 0.025 gives "2.50%",
0.09 gives "9%", 0.10 gives "10%", and 0.0333 gives "3.33%". -/
theorem format_tax_percentage_cases :
    format_tax_percentage (0.025 : ℚ) = "2.50%" ∧
    format_tax_percentage (0.09 : ℚ) = "9%" ∧
    format_tax_percentage (0.10 : ℚ) = "10%" ∧
    format_tax_percentage (0.0333 : ℚ) = "3.33%" := by
  refine ⟨?_, ?_, ?_, ?_⟩
  · have e1 : (0.025 : ℚ) * 100 = 5 / 2 := by norm_num
    have e2 : intTrunc ((0.025 : ℚ) * 100) = 2 := by
      rw [e1]
      exact intTrunc_floor_eval _ 2 (by norm_num) (by norm_num) (by norm_num)
    rw [format_tax_percentage, if_neg (by rw [e2, e1]; norm_num)]
    rw [fixed2_eval _ 250 (by rw [e1]; norm_num)
      (by rw [e1, abs_of_nonneg (by norm_num)]; norm_num)]
    decide
  · have e1 : (0.09 : ℚ) * 100 = ((9 : ℤ) : ℚ) := by norm_num
    simp [format_tax_percentage, e1, intTrunc_intCast]
    decide
  · have e1 : (0.10 : ℚ) * 100 = ((10 : ℤ) : ℚ) := by norm_num
    simp [format_tax_percentage, e1, intTrunc_intCast]
    decide
  · have e1 : (0.0333 : ℚ) * 100 = 333 / 100 := by norm_num
    have e2 : intTrunc ((0.0333 : ℚ) * 100) = 3 := by
      rw [e1]
      exact intTrunc_floor_eval _ 3 (by norm_num) (by norm_num) (by norm_num)
    rw [format_tax_percentage, if_neg (by rw [e2, e1]; norm_num)]
    rw [fixed2_eval _ 333 (by rw [e1]; norm_num)
      (by rw [e1, abs_of_nonneg (by norm_num)]; norm_num)]
    decide

/-- C7: the money formatter renders the fixed currency prefix followed by
the value with a thousands separator and exactly two decimal places:
1234.5 gives "Rs. 1,234.50", 0 gives "Rs. 0.00", and 1000000 gives
"Rs. 1,000,000.00". -/
theorem money_format_cases :
    money (1234.5 : ℚ) = RUPEE ++ "1,234.50" ∧
    money (0 : ℚ) = RUPEE ++ "0.00" ∧
    money (1000000 : ℚ) = RUPEE ++ "1,000,000.00" := by
  refine ⟨?_, ?_, ?_⟩
  · rw [money_eval (1234.5 : ℚ) 123450 (by norm_num)
      (by rw [abs_of_nonneg (by norm_num)]; norm_num)]
    decide
  · rw [money_eval (0 : ℚ) 0 (by norm_num) (by norm_num)]
    decide
  · rw [money_eval (1000000 : ℚ) 100000000 (by norm_num)
      (by rw [abs_of_nonneg (by norm_num)]; norm_num)]
    decide

/-- The `new_item` dictionary built by the `add_item` branch of
`streamlit_app.py` lines 166-185: `amount = rate * quantity`,
`tax = amount * (cgst + sgst)`, `sn = len(invoice_items) + 1`,
`total = amount + tax`. -/
def new_line_item (invoice_items : List LineItem) (item_name : String) (hsn : String)
    (cgst sgst : ℚ) (quantity : ℕ) (rate : ℚ) : LineItem :=
  let amount := rate * quantity
  let tax := amount * (cgst + sgst)
  { sn := invoice_items.length + 1, name := item_name, qty := quantity, hsn := hsn,
    rate := rate, amount := amount, cgst := cgst, sgst := sgst, tax := tax,
    total := amount + tax }

/-- `st.session_state.invoice_items.append(new_item)` from
`streamlit_app.py` line 185: the built item is appended to the
in-progress list. -/
def add_invoice_item (invoice_items : List LineItem) (item_name : String) (hsn : String)
    (cgst sgst : ℚ) (quantity : ℕ) (rate : ℚ) : List LineItem :=
  invoice_items ++ [new_line_item invoice_items item_name hsn cgst sgst quantity rate]

/-- The three-line-item end-to-end scenario of the specification, built
through the assembly layer: (qty 2, rate 100.00, cgst 0.025, sgst 0.025),
(qty 1, rate 500.00, cgst 0.09, sgst 0.09), (qty 5, rate 20.00,
cgst 0.09, sgst 0.09), with catalog names and HSN codes from the default
SKU data. -/
def scenario_items : List LineItem :=
  add_invoice_item
    (add_invoice_item
      (add_invoice_item [] "Tomato Sauce (4.5 Kg)" "2103" (0.025 : ℚ) (0.025 : ℚ) 2 100)
      "Vinegar (650 mL)" "2209" (0.09 : ℚ) (0.09 : ℚ) 1 500)
    "Noodles (500 gm)" "1902" (0.09 : ℚ) (0.09 : ℚ) 5 20

/-- C2: every line item built by the assembly layer satisfies
`amount = rate * quantity`, `tax = amount * (cgst + sgst)` and
`total = amount + tax` exactly, and the specification's three-item
scenario yields amounts 200, 500, 100, taxes 10, 90, 18, totals 210,
590, 118, and aggregate totals amount 800, tax 118, grand total 918. -/
theorem line_item_derivation_end_to_end :
    (∀ (items : List LineItem) (item_name hsn : String) (cgst sgst : ℚ) (quantity : ℕ)
      (rate : ℚ),
      (new_line_item items item_name hsn cgst sgst quantity rate).amount =
          rate * (quantity : ℚ) ∧
        (new_line_item items item_name hsn cgst sgst quantity rate).tax =
          rate * (quantity : ℚ) * (cgst + sgst) ∧
        (new_line_item items item_name hsn cgst sgst quantity rate).total =
          rate * (quantity : ℚ) + rate * (quantity : ℚ) * (cgst + sgst) ∧
        add_invoice_item items item_name hsn cgst sgst quantity rate =
          items ++ [new_line_item items item_name hsn cgst sgst quantity rate]) ∧
    scenario_items.map (fun it => it.amount) = [200, 500, 100] ∧
    scenario_items.map (fun it => it.tax) = [10, 90, 18] ∧
    scenario_items.map (fun it => it.total) = [210, 590, 118] ∧
    recalculate_totals scenario_items = { amount := 800, tax := 118, grand_total := 918 } := by
  refine ⟨?_, ?_, ?_, ?_, ?_⟩
  · intro items item_name hsn cgst sgst quantity rate
    exact ⟨rfl, rfl, rfl, rfl⟩
  · simp [scenario_items, add_invoice_item, new_line_item]
    norm_num
  · simp [scenario_items, add_invoice_item, new_line_item]
    norm_num
  · simp [scenario_items, add_invoice_item, new_line_item]
    norm_num
  · simp [recalculate_totals, scenario_items, add_invoice_item, new_line_item, pySum]
    norm_num

/-- The ten column declarations of `draw_items_table` in
`invoice_app.py` lines 161-165: header label, relative width weight,
alignment code. -/
def COLS : List (String × ℚ × String) :=
  [("S.N.", 0.05, "C"), ("Items", 0.25, "L"), ("Qty.", 0.06, "C"), ("HSN", 0.08, "C"),
   ("Rate", 0.11, "R"), ("Amount", 0.13, "R"), ("CGST", 0.06, "C"), ("SGST", 0.06, "C"),
   ("Tax", 0.12, "R"), ("Total", 0.14, "R")]

/-- `scale = 1.0/sum(w for _,w,_ in COLS)` from `invoice_app.py`
line 166. -/
def colScale : ℚ :=
  1 / pySum (COLS.map fun c => c.2.1)

/-- The normalized columns `[(h, w*scale, a) for h,w,a in COLS]` from
`invoice_app.py` line 167. -/
def normCOLS : List (String × ℚ × String) :=
  COLS.map fun c => (c.1, c.2.1 * colScale, c.2.2)

/-- The column boundary positions of `invoice_app.py` lines 168-170:
`col_x` starts at `[x]` and appends `col_x[-1] + INNER_W*width_frac` for
each normalized width fraction. -/
def col_x (x INNER_W : ℚ) : List ℚ :=
  List.scanl (fun last width_frac => last + INNER_W * width_frac) x
    (normCOLS.map fun c => c.2.1)

/-- C6: the ten normalized column weights sum to 1 exactly, so the last
column boundary coincides with the table's right edge `x + INNER_W`
(exact rational arithmetic: the drift is zero, within any epsilon). -/
theorem items_table_column_widths :
    (normCOLS.map fun c => c.2.1).sum = 1 ∧
    ∀ (x W : ℚ), (col_x x W).getLast? = some (x + W) := by
  constructor
  · simp [normCOLS, COLS, colScale, pySum]
    norm_num
  · intro x W
    simp [col_x, normCOLS, COLS, colScale, pySum, List.scanl]
    norm_num
    ring

/-- The renumbering loop of `streamlit_app.py` lines 219-220:
`for i, item in enumerate(...): item['sn'] = i + 1`, started at 1. -/
def reindex : ℕ → List LineItem → List LineItem
  | _, [] => []
  | n, item :: rest => { item with sn := n } :: reindex (n + 1) rest

/-- The remove-item branch of `streamlit_app.py` lines 215-221:
`invoice_items.pop(index)` followed by reassigning contiguous sequence
numbers from 1. -/
def remove_invoice_item (invoice_items : List LineItem) (index : ℕ) : List LineItem :=
  reindex 1 (invoice_items.eraseIdx index)

/-- A line item with its sequence number blanked, used to compare items
up to renumbering. -/
def stripSn (it : LineItem) : LineItem :=
  { it with sn := 0 }

theorem reindex_map_sn (n : ℕ) (l : List LineItem) :
    (reindex n l).map (fun it => it.sn) = List.range' n l.length := by
  induction l generalizing n with
  | nil => rfl
  | cons item rest ih => simp [reindex, ih, List.range']

theorem reindex_map_stripSn (n : ℕ) (l : List LineItem) :
    (reindex n l).map stripSn = l.map stripSn := by
  induction l generalizing n with
  | nil => rfl
  | cons item rest ih => simp [reindex, ih, stripSn]

/-- C8: removing the item at a valid index renumbers the remaining
items' sequence numbers to the contiguous range 1..n-1, and apart from
the sequence numbers the remaining items are exactly the original list
with that index erased, in their original relative order. -/
theorem remove_item_renumbering (items : List LineItem) (index : ℕ)
    (h : index < items.length) :
    (remove_invoice_item items index).map (fun it => it.sn) =
      List.range' 1 (items.length - 1) ∧
    (remove_invoice_item items index).map stripSn = (items.eraseIdx index).map stripSn := by
  constructor
  · rw [remove_invoice_item, reindex_map_sn, List.length_eraseIdx_of_lt h]
  · exact reindex_map_stripSn 1 _

/-- A concrete four-item in-progress list for exercising the removal
scenario. -/
def demo_four : List LineItem :=
  [{ sn := 1, name := "A", qty := 1, hsn := "1", rate := 1, amount := 1, cgst := 0,
     sgst := 0, tax := 0, total := 1 },
   { sn := 2, name := "B", qty := 2, hsn := "2", rate := 2, amount := 4, cgst := 0,
     sgst := 0, tax := 0, total := 4 },
   { sn := 3, name := "C", qty := 3, hsn := "3", rate := 3, amount := 9, cgst := 0,
     sgst := 0, tax := 0, total := 9 },
   { sn := 4, name := "D", qty := 4, hsn := "4", rate := 4, amount := 16, cgst := 0,
     sgst := 0, tax := 0, total := 16 }]

/-- Witness for C8: removing position 2 of the concrete four-item list
renumbers the rest to 1, 2, 3 in their original order. -/
theorem remove_item_renumbering_witness :
    2 < demo_four.length ∧
    ((remove_invoice_item demo_four 2).map (fun it => it.sn) =
        List.range' 1 (demo_four.length - 1) ∧
      (remove_invoice_item demo_four 2).map stripSn =
        (demo_four.eraseIdx 2).map stripSn) :=
  ⟨by decide, remove_item_renumbering demo_four 2 (by decide)⟩

/-- The error raised by a Python dictionary access on an absent key:
`KeyError` carrying the looked-up key name. -/
inductive RenderError where
  | keyError (field : String)
deriving Repr, DecidableEq

/-- The `buyer` record of `invoice_data` (a customer entry: `name`,
`id_type`, `id_value`); `Option` models presence of the key in the
dictionary. -/
structure Buyer where
  name : Option String
  id_type : Option String
  id_value : Option String
deriving Repr, DecidableEq

/-- The `meta` record of `invoice_data` (`no`, `date`,
`place_of_supply`, `vehicle_no`), values as rendered strings; `Option`
models presence of the key. -/
structure InvoiceMeta where
  no : Option String
  date : Option String
  place_of_supply : Option String
  vehicle_no : Option String
deriving Repr, DecidableEq

/-- The `invoice_data` dictionary submitted to `generate_pdf`. -/
structure InvoiceData where
  meta : InvoiceMeta
  buyer : Buyer
  items : List LineItem
  totals : InvoiceTotals
deriving Repr, DecidableEq

/-- A Python dictionary access `d[field]`: the value when the key is
present, a `KeyError` naming the key when absent. -/
def req (field : String) : Option String → Except RenderError String
  | some v => Except.ok v
  | none => Except.error (RenderError.keyError field)

/-- The fixed seller identity block of `generate_pdf` lines 117-121. -/
def seller_lines : List String :=
  ["M/s Sukhrani Enterprises", "63 B1 Charari Lal Bangla Kanpur, Uttar Pradesh",
   "8604311514, GSTIN: 09AJBPA644Q2ZZ"]

/-- `draw_header` of `invoice_app.py` lines 130-142: the text fragments
it draws (seller block, document title, copy label). -/
def draw_header (copy_label : String) : List String :=
  seller_lines ++ ["INVOICE", copy_label]

/-- `draw_billing_meta` of `invoice_app.py` lines 144-158: the text
fragments it draws, with dictionary accesses in source order; an absent
key aborts the drawing with a `KeyError`. -/
def draw_billing_meta (d : InvoiceData) : Except RenderError (List String) := do
  let buyer_name ← req "name" d.buyer.name
  let id_type ← req "id_type" d.buyer.id_type
  let id_value ← req "id_value" d.buyer.id_value
  let place ← req "place_of_supply" d.meta.place_of_supply
  let inv_no ← req "no" d.meta.no
  let date ← req "date" d.meta.date
  let vehicle ← req "vehicle_no" d.meta.vehicle_no
  return ["Bill To:", buyer_name, id_type ++ ": " ++ id_value,
          "Place of Supply: " ++ place, "Invoice #: " ++ inv_no,
          "Bill Date: " ++ date, "Vehicle No: " ++ vehicle]

/-- `draw_items_table` of `invoice_app.py` lines 160-227: the column
header labels followed by each item row's ten cells in source order,
currency cells through `money` and percentage cells through
`format_tax_percentage`. -/
def draw_items_table (d : InvoiceData) : List String :=
  (COLS.map fun c => c.1) ++
    (d.items.map fun item =>
      [Nat.repr item.sn, item.name, Nat.repr item.qty, item.hsn, money item.rate,
       money item.amount, format_tax_percentage item.cgst, format_tax_percentage item.sgst,
       money item.tax, money item.total]).flatten

/-- `draw_footer` of `invoice_app.py` lines 229-243: totals labels and
values, payee instruction, signature label. -/
def draw_footer (d : InvoiceData) : List String :=
  ["Total Amount", money d.totals.amount, "Total Tax", money d.totals.tax,
   "GRAND TOTAL", money d.totals.grand_total,
   "Make all checks payable to Sukhrani Enterprises", "Signature"]

/-- `draw_invoice_copy` of `invoice_app.py` lines 245-249: header, then
billing block, then items table, then footer. -/
def draw_invoice_copy (d : InvoiceData) (copy_label : String) :
    Except RenderError (List String) := do
  let billing ← draw_billing_meta d
  return draw_header copy_label ++ billing ++ draw_items_table d ++ draw_footer d

/-- `generate_pdf` of `invoice_app.py` lines 77-269 on the web path
(an `output_path` is supplied by the Streamlit caller, so the
folder-derivation branch is skipped): the canvas is modelled as the list
of text fragments drawn, two copies of the invoice; the document
artifact exists only when no `KeyError` was raised before `c.save()`. -/
def generate_pdf (d : InvoiceData) : Except RenderError (List String) := do
  let original ← draw_invoice_copy d "Original Copy"
  let duplicate ← draw_invoice_copy d "Duplicate Copy"
  return original ++ duplicate

/-- The scalar fields of `invoice_data` that `generate_pdf` reads
unconditionally while drawing the billing block. -/
def requiredFields : List String :=
  ["name", "id_type", "id_value", "place_of_supply", "no", "date", "vehicle_no"]

/-- Looks a required field of the invoice record up by its dictionary
key. -/
def getField (d : InvoiceData) (field : String) : Option String :=
  if field = "name" then d.buyer.name
  else if field = "id_type" then d.buyer.id_type
  else if field = "id_value" then d.buyer.id_value
  else if field = "place_of_supply" then d.meta.place_of_supply
  else if field = "no" then d.meta.no
  else if field = "date" then d.meta.date
  else if field = "vehicle_no" then d.meta.vehicle_no
  else none

theorem except_bind_error {ε α β : Type} (e : ε) (f : α → Except ε β) :
    (Except.error e >>= f : Except ε β) = Except.error e :=
  rfl

theorem except_bind_ok {ε α β : Type} (a : α) (f : α → Except ε β) :
    (Except.ok a >>= f : Except ε β) = f a :=
  rfl

theorem except_pure {ε α : Type} (a : α) :
    (pure a : Except ε α) = Except.ok a :=
  rfl

/-- C4: when any required field of the invoice record is absent (the
buyer identifier value in particular), `generate_pdf` emits no document
and fails with a `KeyError` naming a field that is indeed absent. -/
theorem generate_pdf_missing_field_error (d : InvoiceData) (f0 : String)
    (hmem : f0 ∈ requiredFields) (h0 : getField d f0 = none) :
    (∀ doc, generate_pdf d ≠ Except.ok doc) ∧
    ∃ f, generate_pdf d = Except.error (RenderError.keyError f) ∧ getField d f = none := by
  suffices h : ∃ f, generate_pdf d = Except.error (RenderError.keyError f) ∧
      getField d f = none by
    obtain ⟨f, hf, hnone⟩ := h
    refine ⟨fun doc hdoc => ?_, f, hf, hnone⟩
    rw [hf] at hdoc
    exact Except.noConfusion hdoc
  cases hname : d.buyer.name with
  | none =>
    exact ⟨"name", by simp [generate_pdf, draw_invoice_copy, draw_billing_meta, req, hname,
        except_bind_error, except_bind_ok, except_pure],
      by simp [getField, hname]⟩
  | some buyer_name =>
  cases hidt : d.buyer.id_type with
  | none =>
    exact ⟨"id_type",
      by simp [generate_pdf, draw_invoice_copy, draw_billing_meta, req, hname, hidt,
        except_bind_error, except_bind_ok, except_pure],
      by simp [getField, hidt]⟩
  | some id_type =>
  cases hidv : d.buyer.id_value with
  | none =>
    exact ⟨"id_value",
      by simp [generate_pdf, draw_invoice_copy, draw_billing_meta, req, hname, hidt, hidv,
        except_bind_error, except_bind_ok, except_pure],
      by simp [getField, hidv]⟩
  | some id_value =>
  cases hpos : d.meta.place_of_supply with
  | none =>
    exact ⟨"place_of_supply",
      by simp [generate_pdf, draw_invoice_copy, draw_billing_meta, req, hname, hidt, hidv,
        hpos, except_bind_error, except_bind_ok, except_pure],
      by simp [getField, hpos]⟩
  | some place =>
  cases hno : d.meta.no with
  | none =>
    exact ⟨"no",
      by simp [generate_pdf, draw_invoice_copy, draw_billing_meta, req, hname, hidt, hidv,
        hpos, hno, except_bind_error, except_bind_ok, except_pure],
      by simp [getField, hno]⟩
  | some inv_no =>
  cases hdate : d.meta.date with
  | none =>
    exact ⟨"date",
      by simp [generate_pdf, draw_invoice_copy, draw_billing_meta, req, hname, hidt, hidv,
        hpos, hno, hdate, except_bind_error, except_bind_ok, except_pure],
      by simp [getField, hdate]⟩
  | some date =>
  cases hveh : d.meta.vehicle_no with
  | none =>
    exact ⟨"vehicle_no",
      by simp [generate_pdf, draw_invoice_copy, draw_billing_meta, req, hname, hidt, hidv,
        hpos, hno, hdate, hveh, except_bind_error, except_bind_ok, except_pure],
      by simp [getField, hveh]⟩
  | some vehicle =>
    exfalso
    simp only [requiredFields, List.mem_cons, List.not_mem_nil, or_false] at hmem
    rcases hmem with rfl | rfl | rfl | rfl | rfl | rfl | rfl <;>
      simp [getField, hname, hidt, hidv, hpos, hno, hdate, hveh] at h0

/-- An invoice record complete except for the buyer identifier value. -/
def missing_id_value_invoice : InvoiceData :=
  { meta := { no := some "101", date := some "12/10/2026",
              place_of_supply := some "Rudauli", vehicle_no := some "UP78 JT 9555" },
    buyer := { name := some "Prakash & Sons", id_type := some "GSTN", id_value := none },
    items := [],
    totals := { amount := 0, tax := 0, grand_total := 0 } }

/-- Witness for C4: the renderer refuses the concrete record whose buyer
identifier value is absent. -/
theorem generate_pdf_missing_field_error_witness :
    ("id_value" ∈ requiredFields ∧ getField missing_id_value_invoice "id_value" = none) ∧
    ((∀ doc, generate_pdf missing_id_value_invoice ≠ Except.ok doc) ∧
      ∃ f, generate_pdf missing_id_value_invoice = Except.error (RenderError.keyError f) ∧
        getField missing_id_value_invoice f = none) :=
  ⟨⟨by decide, rfl⟩,
    generate_pdf_missing_field_error missing_id_value_invoice "id_value" (by decide) rfl⟩

/-- The invoice-data assembly of `streamlit_app.py` lines 231-244: the
items and totals come from one `apply_price_adjustments` call on the
session's in-progress item list. -/
def assemble_invoice (meta : InvoiceMeta) (buyer : Buyer)
    (invoice_items : List LineItem) : InvoiceData :=
  { meta := meta, buyer := buyer,
    items := (apply_price_adjustments invoice_items).1,
    totals := (apply_price_adjustments invoice_items).2.1 }

/-- The `st.session_state` slice the invoice generation page works on:
the in-progress line-item list and the reference-data snapshot. -/
structure Session where
  invoice_items : List LineItem
  sku_data : List (String × String × ℚ × ℚ × List String)
  customer_data : List (String × List Buyer)
  vehicle_list : List String
deriving Repr, DecidableEq

/-- The generate-button handler of `streamlit_app.py` lines 224-283 as a
state transition: it assembles the invoice record from the session's
item list and calls `generate_pdf` exactly once inside `try`; the
`except` branch only displays the error, and no statement in the handler
writes to the session state. -/
def generate_button_handler (s : Session) (meta : InvoiceMeta) (buyer : Buyer) :
    Session × Except RenderError (List String) :=
  (s, generate_pdf (assemble_invoice meta buyer s.invoice_items))

/-- C9: when the render raises an error, the handler leaves the whole
session state (line-item list and reference-data snapshot) exactly as it
was and surfaces the single call's error with no retry. -/
theorem failed_render_preserves_session (s : Session) (meta : InvoiceMeta) (buyer : Buyer)
    (e : RenderError)
    (h : generate_pdf (assemble_invoice meta buyer s.invoice_items) = Except.error e) :
    (generate_button_handler s meta buyer).1 = s ∧
    (generate_button_handler s meta buyer).2 = Except.error e :=
  ⟨rfl, h⟩

/-- A concrete session with one in-progress line item. -/
def demo_session : Session :=
  { invoice_items :=
      [{ sn := 1, name := "Tomato Sauce (4.5 Kg)", qty := 2, hsn := "2103", rate := 100,
         amount := 200, cgst := 0, sgst := 0, tax := 10, total := 210 }],
    sku_data := [("Tomato Sauce", "2103", 0, 0, ["4.5 Kg"])],
    customer_data :=
      [("Rudauli", [{ name := some "Prakash & Sons", id_type := some "GSTN",
                      id_value := some "09AUHPP5426C1ZM" }])],
    vehicle_list := ["UP78 JT 9555"] }

/-- Concrete metadata for the failing render. -/
def demo_meta : InvoiceMeta :=
  { no := some "101", date := some "12/10/2026", place_of_supply := some "Rudauli",
    vehicle_no := some "UP78 JT 9555" }

/-- A concrete buyer whose identifier value is absent, making the render
fail. -/
def demo_buyer_missing : Buyer :=
  { name := some "Prakash & Sons", id_type := some "GSTN", id_value := none }

/-- Witness for C9: on the concrete failing render the session comes
back untouched and the error is surfaced. -/
theorem failed_render_preserves_session_witness :
    generate_pdf (assemble_invoice demo_meta demo_buyer_missing
        demo_session.invoice_items) =
      Except.error (RenderError.keyError "id_value") ∧
    ((generate_button_handler demo_session demo_meta demo_buyer_missing).1 =
        demo_session ∧
      (generate_button_handler demo_session demo_meta demo_buyer_missing).2 =
        Except.error (RenderError.keyError "id_value")) :=
  ⟨rfl, failed_render_preserves_session demo_session demo_meta demo_buyer_missing _ rfl⟩

/-- C10: the totals calculator, and the totals component of the
price-adjustment passthrough, read only each item's `amount` and `tax`
fields: two item lists that agree pointwise on those two fields yield
identical totals, however the other fields differ. -/
theorem totals_depend_only_on_amount_tax (l1 l2 : List LineItem)
    (h : List.Forall₂ (fun a b => a.amount = b.amount ∧ a.tax = b.tax) l1 l2) :
    recalculate_totals l1 = recalculate_totals l2 ∧
    (apply_price_adjustments l1).2.1 = (apply_price_adjustments l2).2.1 := by
  have hm : l1.map (fun it => it.amount) = l2.map (fun it => it.amount) ∧
      l1.map (fun it => it.tax) = l2.map (fun it => it.tax) := by
    induction h with
    | nil => exact ⟨rfl, rfl⟩
    | cons hab hrest ih => simp [hab.1, hab.2, ih.1, ih.2]
  constructor
  · simp [recalculate_totals, hm.1, hm.2]
  · simp [apply_price_adjustments, recalculate_totals, hm.1, hm.2]

/-- Two items with the same amount and tax as the corresponding
`items_right` entries but different names, quantities, rates, HSN codes
and tax rates. -/
def items_left : List LineItem :=
  [{ sn := 1, name := "Tomato Sauce (4.5 Kg)", qty := 2, hsn := "2103", rate := 100,
     amount := 200, cgst := 0, sgst := 0, tax := 10, total := 210 },
   { sn := 2, name := "Vinegar (650 mL)", qty := 1, hsn := "2209", rate := 500,
     amount := 500, cgst := 1, sgst := 1, tax := 90, total := 590 }]

/-- The comparison list for C10: same `amount` and `tax` fields as
`items_left`, everything else different. -/
def items_right : List LineItem :=
  [{ sn := 9, name := "Noodles (500 gm)", qty := 7, hsn := "1902", rate := 3,
     amount := 200, cgst := 2, sgst := 2, tax := 10, total := 0 },
   { sn := 8, name := "PET Bottle", qty := 4, hsn := "3923", rate := 6,
     amount := 500, cgst := 3, sgst := 3, tax := 90, total := 1 }]

/-- Witness for C10: the two concrete lists agreeing only on amount and
tax produce identical totals. -/
theorem totals_depend_only_on_amount_tax_witness :
    List.Forall₂ (fun a b => a.amount = b.amount ∧ a.tax = b.tax) items_left items_right ∧
    (recalculate_totals items_left = recalculate_totals items_right ∧
      (apply_price_adjustments items_left).2.1 =
        (apply_price_adjustments items_right).2.1) :=
  ⟨List.Forall₂.cons ⟨rfl, rfl⟩ (List.Forall₂.cons ⟨rfl, rfl⟩ List.Forall₂.nil),
    totals_depend_only_on_amount_tax items_left items_right
      (List.Forall₂.cons ⟨rfl, rfl⟩ (List.Forall₂.cons ⟨rfl, rfl⟩ List.Forall₂.nil))⟩

end Sukhrani
